import Mathlib

/-!
Verification of the tensor element-type registry, the tensor data-extraction
layer and the custom-operator kernel bridge of a Rust binding to a native
tensor-computation engine.  The definitions below are a shallow embedding of
the source files `crates/ort/src/tensor/types.rs` and `src/operator/kernel.rs`.
Foreign calls into the engine are modelled by explicit engine structures whose
fields give the status and out-parameter values each call produces; Rust
panics are modelled as a distinguished `fatal` outcome, separate from the
typed errors the functions return.
-/

namespace OrtSpec

/-- Kinds of fatal faults (Rust panics) that the modelled code can raise:
a violated debug assertion on the final offset slot, an out-of-range slice
index while cutting the string content buffer, the shape/element-count
mismatch fault in string assembly, the null-handle assertion in the kernel
output accessor, and the unrecognized-native-code fault of the registry. -/
inductive FaultKind where
  | debugAssertLastOffset
  | sliceOutOfRange
  | shapeMismatch
  | nullOutputHandle
  | invalidNativeCode
  deriving DecidableEq, Repr

/-- Outcome of a Rust function returning `Result` while also able to panic:
`ok` is the `Ok` case, `err` the `Err` case, `fatal` an uncaught panic. -/
inductive Outcome (ε : Type) (α : Type) where
  | ok : α → Outcome ε α
  | err : ε → Outcome ε α
  | fatal : FaultKind → Outcome ε α
  deriving DecidableEq, Repr

/-- Outcome of a Rust function that cannot return a typed error but can
panic, such as an infallible conversion containing an assertion. -/
abbrev Fatal (α : Type) := Outcome Empty α

/-- The closed set of tensor element types supported by the binding,
from the `TensorElementType` enum (with the `half` feature enabled,
so that `Float16` and `Bfloat16` are present). -/
inductive TensorElementType where
  | Float32
  | Uint8
  | Int8
  | Uint16
  | Int16
  | Int32
  | Int64
  | String
  | Bool
  | Float16
  | Float64
  | Uint32
  | Uint64
  | Bfloat16
  deriving DecidableEq, Repr

/-- The native engine's element-type code enumeration
(`ONNXTensorElementDataType`), including the codes the binding does not
support: undefined and the complex types. -/
inductive ONNXTensorElementDataType where
  | ONNX_TENSOR_ELEMENT_DATA_TYPE_UNDEFINED
  | ONNX_TENSOR_ELEMENT_DATA_TYPE_FLOAT
  | ONNX_TENSOR_ELEMENT_DATA_TYPE_UINT8
  | ONNX_TENSOR_ELEMENT_DATA_TYPE_INT8
  | ONNX_TENSOR_ELEMENT_DATA_TYPE_UINT16
  | ONNX_TENSOR_ELEMENT_DATA_TYPE_INT16
  | ONNX_TENSOR_ELEMENT_DATA_TYPE_INT32
  | ONNX_TENSOR_ELEMENT_DATA_TYPE_INT64
  | ONNX_TENSOR_ELEMENT_DATA_TYPE_STRING
  | ONNX_TENSOR_ELEMENT_DATA_TYPE_BOOL
  | ONNX_TENSOR_ELEMENT_DATA_TYPE_FLOAT16
  | ONNX_TENSOR_ELEMENT_DATA_TYPE_DOUBLE
  | ONNX_TENSOR_ELEMENT_DATA_TYPE_UINT32
  | ONNX_TENSOR_ELEMENT_DATA_TYPE_UINT64
  | ONNX_TENSOR_ELEMENT_DATA_TYPE_COMPLEX64
  | ONNX_TENSOR_ELEMENT_DATA_TYPE_COMPLEX128
  | ONNX_TENSOR_ELEMENT_DATA_TYPE_BFLOAT16
  deriving DecidableEq, Repr

open ONNXTensorElementDataType

/-- Conversion from a host tag to the engine's native code, from
`impl From<TensorElementType> for ort_sys::ONNXTensorElementDataType`. -/
def toNative : TensorElementType → ONNXTensorElementDataType
  | .Float32 => ONNX_TENSOR_ELEMENT_DATA_TYPE_FLOAT
  | .Uint8 => ONNX_TENSOR_ELEMENT_DATA_TYPE_UINT8
  | .Int8 => ONNX_TENSOR_ELEMENT_DATA_TYPE_INT8
  | .Uint16 => ONNX_TENSOR_ELEMENT_DATA_TYPE_UINT16
  | .Int16 => ONNX_TENSOR_ELEMENT_DATA_TYPE_INT16
  | .Int32 => ONNX_TENSOR_ELEMENT_DATA_TYPE_INT32
  | .Int64 => ONNX_TENSOR_ELEMENT_DATA_TYPE_INT64
  | .String => ONNX_TENSOR_ELEMENT_DATA_TYPE_STRING
  | .Bool => ONNX_TENSOR_ELEMENT_DATA_TYPE_BOOL
  | .Float16 => ONNX_TENSOR_ELEMENT_DATA_TYPE_FLOAT16
  | .Float64 => ONNX_TENSOR_ELEMENT_DATA_TYPE_DOUBLE
  | .Uint32 => ONNX_TENSOR_ELEMENT_DATA_TYPE_UINT32
  | .Uint64 => ONNX_TENSOR_ELEMENT_DATA_TYPE_UINT64
  | .Bfloat16 => ONNX_TENSOR_ELEMENT_DATA_TYPE_BFLOAT16

/-- Conversion from a native code back to the host tag, from
`impl From<ort_sys::ONNXTensorElementDataType> for TensorElementType`.
The catch-all arm of the Rust match is a panic, modelled as a fatal
fault with kind `invalidNativeCode`. -/
def fromNative : ONNXTensorElementDataType → Fatal TensorElementType
  | ONNX_TENSOR_ELEMENT_DATA_TYPE_FLOAT => .ok .Float32
  | ONNX_TENSOR_ELEMENT_DATA_TYPE_UINT8 => .ok .Uint8
  | ONNX_TENSOR_ELEMENT_DATA_TYPE_INT8 => .ok .Int8
  | ONNX_TENSOR_ELEMENT_DATA_TYPE_UINT16 => .ok .Uint16
  | ONNX_TENSOR_ELEMENT_DATA_TYPE_INT16 => .ok .Int16
  | ONNX_TENSOR_ELEMENT_DATA_TYPE_INT32 => .ok .Int32
  | ONNX_TENSOR_ELEMENT_DATA_TYPE_INT64 => .ok .Int64
  | ONNX_TENSOR_ELEMENT_DATA_TYPE_STRING => .ok .String
  | ONNX_TENSOR_ELEMENT_DATA_TYPE_BOOL => .ok .Bool
  | ONNX_TENSOR_ELEMENT_DATA_TYPE_FLOAT16 => .ok .Float16
  | ONNX_TENSOR_ELEMENT_DATA_TYPE_DOUBLE => .ok .Float64
  | ONNX_TENSOR_ELEMENT_DATA_TYPE_UINT32 => .ok .Uint32
  | ONNX_TENSOR_ELEMENT_DATA_TYPE_UINT64 => .ok .Uint64
  | ONNX_TENSOR_ELEMENT_DATA_TYPE_BFLOAT16 => .ok .Bfloat16
  | _ => .fatal .invalidNativeCode

/-- The host scalar types for which the binding implements both the
construction-side trait (`IntoTensorElementType`) and the extraction-side
trait (`ExtractTensorData`), with the `half` feature enabled. -/
inductive HostScalarType where
  | f32
  | u8
  | i8
  | u16
  | i16
  | i32
  | i64
  | bool
  | f16
  | f64
  | u32
  | u64
  | bf16
  deriving DecidableEq, Repr

/-- The tag assigned to each host scalar type by the construction-side
registry, from the `impl_type_trait!` invocations. -/
def intoTensorElementType : HostScalarType → TensorElementType
  | .f32 => .Float32
  | .u8 => .Uint8
  | .i8 => .Int8
  | .u16 => .Uint16
  | .i16 => .Int16
  | .i32 => .Int32
  | .i64 => .Int64
  | .bool => .Bool
  | .f16 => .Float16
  | .f64 => .Float64
  | .u32 => .Uint32
  | .u64 => .Uint64
  | .bf16 => .Bfloat16

/-- The tag reported for each host scalar type by the extraction capability
trait, from the `impl_prim_type_from_ort_trait!` invocations (written here
in the order of those invocations in the source). -/
def extractTensorElementType : HostScalarType → TensorElementType
  | .f16 => .Float16
  | .bf16 => .Bfloat16
  | .f32 => .Float32
  | .f64 => .Float64
  | .u8 => .Uint8
  | .u16 => .Uint16
  | .u32 => .Uint32
  | .u64 => .Uint64
  | .i8 => .Int8
  | .i16 => .Int16
  | .i32 => .Int32
  | .i64 => .Int64
  | .bool => .Bool

/-- Typed errors the extraction layer can return, one constructor per
source error path: a failed status from each foreign call, the null-pointer
check of the call helper, and the UTF-8 decode failure, which in the source
wraps the standard FromUtf8Error and therefore carries (a copy of) the
offending bytes. -/
inductive ExtractError where
  | GetTensorMutableData
  | PointerShouldNotBeNull
  | GetStringTensorDataLength
  | GetStringTensorContent
  | StringFromUtf8Error (bytes : List Nat)
  deriving DecidableEq, Repr

/-- Names of the foreign calls the extraction layer can issue; extraction
functions return, next to their outcome, the trace of calls they made. -/
inductive FCall where
  | GetTensorMutableData
  | GetStringTensorDataLength
  | GetStringTensorContent
  | KernelInfoGetAttributeFloat
  deriving DecidableEq, Repr

/-- A continuation byte of a UTF-8 sequence (high bits 10). -/
def isUtf8Cont (b : Nat) : Bool := 0x80 ≤ b && b ≤ 0xBF

/-- UTF-8 validity of a byte sequence, per RFC 3629 as enforced by the
standard library validation the source relies on: ASCII, two-byte
sequences C2..DF, three-byte sequences with the E0/ED range restrictions
excluding overlongs and surrogates, four-byte sequences with the F0/F4
range restrictions capping at U+10FFFF. -/
def utf8Valid : List Nat → Bool
  | [] => true
  | b :: rest =>
    if b ≤ 0x7F then utf8Valid rest
    else if 0xC2 ≤ b && b ≤ 0xDF then
      match rest with
      | c1 :: r => isUtf8Cont c1 && utf8Valid r
      | [] => false
    else if b == 0xE0 then
      match rest with
      | c1 :: c2 :: r => (0xA0 ≤ c1 && c1 ≤ 0xBF) && isUtf8Cont c2 && utf8Valid r
      | _ => false
    else if (0xE1 ≤ b && b ≤ 0xEC) || b == 0xEE || b == 0xEF then
      match rest with
      | c1 :: c2 :: r => isUtf8Cont c1 && isUtf8Cont c2 && utf8Valid r
      | _ => false
    else if b == 0xED then
      match rest with
      | c1 :: c2 :: r => (0x80 ≤ c1 && c1 ≤ 0x9F) && isUtf8Cont c2 && utf8Valid r
      | _ => false
    else if b == 0xF0 then
      match rest with
      | c1 :: c2 :: c3 :: r =>
        (0x90 ≤ c1 && c1 ≤ 0xBF) && isUtf8Cont c2 && isUtf8Cont c3 && utf8Valid r
      | _ => false
    else if 0xF1 ≤ b && b ≤ 0xF3 then
      match rest with
      | c1 :: c2 :: c3 :: r =>
        isUtf8Cont c1 && isUtf8Cont c2 && isUtf8Cont c3 && utf8Valid r
      | _ => false
    else if b == 0xF4 then
      match rest with
      | c1 :: c2 :: c3 :: r =>
        (0x80 ≤ c1 && c1 ≤ 0x8F) && isUtf8Cont c2 && isUtf8Cont c3 && utf8Valid r
      | _ => false
    else false

/-- The standard String::from_utf8 on a byte vector: a Rust String is its
UTF-8 byte content, so success returns the bytes unchanged while failure
returns a FromUtf8Error, which carries the input bytes. -/
def fromUtf8 (bs : List Nat) : Except (List Nat) (List Nat) :=
  if utf8Valid bs then .ok bs else .error bs

/-- Effect of the engine writing a prefix of a caller-allocated buffer: the
written bytes replace the front of the buffer, the buffer's length is
preserved, and writes are truncated at the buffer's capacity. -/
def bufWrite (written buf : List Nat) : List Nat :=
  written.take buf.length ++ buf.drop written.length

/-- All adjacent pairs of a list, as produced by the source's
offsets.windows(2) iteration. -/
def windows2 : List Nat → List (Nat × Nat)
  | a :: b :: rest => (a, b) :: windows2 (b :: rest)
  | _ => []

/-- Number of elements described by a shape: the product of its extents,
which is what the ndarray from_shape_vec assembly checks the flat vector's
length against. -/
def shapeSize (shape : List Nat) : Nat := shape.foldl (fun a d => a * d) 1

/-- The per-window slicing and decoding loop of String extraction: for each
adjacent offset pair, slice the content buffer (an out-of-range slice index
is a Rust panic) and decode the slice as UTF-8; the first failed decode
aborts the whole collect with the corresponding error. -/
def decodeStrings (contents : List Nat) :
    List (Nat × Nat) → Outcome ExtractError (List (List Nat))
  | [] => .ok []
  | w :: ws =>
    if w.1 ≤ w.2 ∧ w.2 ≤ contents.length then
      match fromUtf8 ((contents.drop w.1).take (w.2 - w.1)) with
      | .error bs => .err (.StringFromUtf8Error bs)
      | .ok s =>
        match decodeStrings contents ws with
        | .ok rest => .ok (s :: rest)
        | .err e => .err e
        | .fatal k => .fatal k
    else .fatal .sliceOutOfRange

/-- Engine model for the two foreign calls of string extraction: the status
and out-value of GetStringTensorDataLength, and the status of
GetStringTensorContent together with the bytes it writes into the content
buffer and the offsets it writes into the front of the offset table. -/
structure StringTensorEngine where
  stringDataLength : Except Unit Nat
  stringContent : Except Unit (List Nat × List Nat)

/-- A view over engine memory as built by ndarray from_shape_ptr: it holds
only the shape and the raw data pointer, no element data (nothing is
copied). -/
structure ArrayViewData where
  shape : List Nat
  dataPtr : Nat
  deriving DecidableEq, Repr

/-- The TensorData result enum of the source: a borrowed primitive view
keeping the original tensor handle alive next to the view, or owned decoded
strings laid out as a shape plus the flat decoded elements. -/
inductive TensorData where
  | PrimitiveView (ptr : Nat) (arrayView : ArrayViewData)
  | Strings (shape : List Nat) (strings : List (List Nat))
  deriving DecidableEq, Repr

/-- String::extract_tensor_array from the source: query the total content
length; allocate a zero-filled content buffer of that size and a zero-filled
offset table of tensorElementLen + 1 slots; issue the content fetch; check
the debug assertion that the engine left the final offset slot at 0, then
overwrite that slot with the total length; decode every adjacent offset
window; assemble into a shaped array, where a size mismatch is the expect
panic. The second component is the trace of foreign calls issued. -/
def stringExtractTensorArray (eng : StringTensorEngine) (shape : List Nat)
    (tensorElementLen : Nat) : Outcome ExtractError TensorData × List FCall :=
  match eng.stringDataLength with
  | .error _ => (.err .GetStringTensorDataLength, [.GetStringTensorDataLength])
  | .ok totalLength =>
    let stringContents0 := List.replicate totalLength 0
    let offsets0 := List.replicate (tensorElementLen + 1) 0
    match eng.stringContent with
    | .error _ =>
      (.err .GetStringTensorContent, [.GetStringTensorDataLength, .GetStringTensorContent])
    | .ok (cw, ow) =>
      let stringContents := bufWrite cw stringContents0
      let offsets1 := bufWrite ow offsets0
      if offsets1.getD tensorElementLen 0 ≠ 0 then
        (.fatal .debugAssertLastOffset, [.GetStringTensorDataLength, .GetStringTensorContent])
      else
        let offsets2 := offsets1.set tensorElementLen totalLength
        match decodeStrings stringContents (windows2 offsets2) with
        | .ok strs =>
          if shapeSize shape = strs.length then
            (.ok (.Strings shape strs), [.GetStringTensorDataLength, .GetStringTensorContent])
          else
            (.fatal .shapeMismatch, [.GetStringTensorDataLength, .GetStringTensorContent])
        | .err e => (.err e, [.GetStringTensorDataLength, .GetStringTensorContent])
        | .fatal k => (.fatal k, [.GetStringTensorDataLength, .GetStringTensorContent])

/-- Concrete string-tensor engine for the worked example of the spec:
element count 3, total content length 8, content bytes the concatenation
ab XYZ qrs (97 98 88 89 90 113 114 115), engine-filled offsets 0, 2, 5. -/
def engStrAbc : StringTensorEngine :=
  ⟨.ok 8, .ok ([97, 98, 88, 89, 90, 113, 114, 115], [0, 2, 5])⟩

/-- Concrete string-tensor engine whose FIRST element's slice is the single
invalid byte 255, followed by a valid one-byte element 97. -/
def engStrBadFirst : StringTensorEngine := ⟨.ok 2, .ok ([255, 97], [0, 1])⟩

/-- Concrete string-tensor engine whose SECOND element's slice is the single
invalid byte 255, preceded by a valid one-byte element 97. -/
def engStrBadSecond : StringTensorEngine := ⟨.ok 2, .ok ([97, 255], [0, 1])⟩

/-- Engine model for the single foreign call of primitive extraction:
for each tensor handle, the status of GetTensorMutableData and, on reported
success, the raw data pointer it writes (0 models the null pointer). -/
structure PrimTensorEngine where
  tensorMutableData : Nat → Except Unit Nat

/-- extract_primitive_array from the source, with the call helper semantics
modelled from the spec: issue the one GetTensorMutableData call; a failed
status reported by the engine becomes the GetTensorMutableData typed error,
a null out-pointer after reported success becomes the PointerShouldNotBeNull
typed error; otherwise build the from_shape_ptr view over the returned
pointer, copying nothing. The second component is the call trace. -/
def extractPrimitiveArray (eng : PrimTensorEngine) (shape : List Nat) (tensor : Nat) :
    Outcome ExtractError ArrayViewData × List FCall :=
  match eng.tensorMutableData tensor with
  | .error _ => (.err .GetTensorMutableData, [.GetTensorMutableData])
  | .ok p =>
    if p = 0 then (.err .PointerShouldNotBeNull, [.GetTensorMutableData])
    else (.ok ⟨shape, p⟩, [.GetTensorMutableData])

/-- The extract_tensor_array implementation that
impl_prim_type_from_ort_trait generates for every primitive element type:
delegate to extract_primitive_array and wrap a successful view in
TensorData.PrimitiveView together with the original tensor handle, which
serves as the borrow token keeping the view tied to the live tensor. -/
def primExtractTensorArray (eng : PrimTensorEngine) (shape : List Nat)
    (_tensorElementLen : Nat) (tensor : Nat) : Outcome ExtractError TensorData × List FCall :=
  match extractPrimitiveArray eng shape tensor with
  | (.ok v, tr) => (.ok (.PrimitiveView tensor v), tr)
  | (.err e, tr) => (.err e, tr)
  | (.fatal k, tr) => (.fatal k, tr)

/-- Modelled from the spec: Value::from_raw_ref_dropless, the
wrap-without-taking-ownership constructor of the value module (not among
the provided sources). It wraps a raw engine handle without assuming
ownership and without any null check, so the wrapped value is the handle
itself. -/
def valueFromRawRefDropless (p : Nat) : Nat := p

/-- Engine model for the kernel context's two foreign calls: for each input
index, the status of KernelContext_GetInput and the handle pointer it writes
on success (0 models null, including the case where the engine reports
success without writing the null-initialized out-parameter); for each output
index and requested shape, the same for KernelContext_GetOutput. Statuses
are given post-translation, per the spec's error-translation collaborator. -/
structure KernelContextEngine where
  getInput : Nat → Except Unit Nat
  getOutput : Nat → List Int → Except Unit Nat

/-- KernelContext::input from the source: one foreign call; any reported
failure collapses to none; reported success wraps whatever handle pointer
the engine wrote - with no null check - in a ValueView. -/
def kernelContextInput (eng : KernelContextEngine) (idx : Nat) : Option Nat :=
  match eng.getInput idx with
  | .error _ => none
  | .ok p => some (valueFromRawRefDropless p)

/-- KernelContext::output from the source: collect the shape, issue one
foreign allocation call; reported failure collapses to none; on reported
success assert that the written handle is non-null (a null is the assert
panic, modelled as a fatal fault) and wrap it droplessly. -/
def kernelContextOutput (eng : KernelContextEngine) (idx : Nat) (shape : List Int) :
    Fatal (Option Nat) :=
  match eng.getOutput idx shape with
  | .error _ => .ok none
  | .ok p =>
    if p = 0 then .fatal .nullOutputHandle
    else .ok (some (valueFromRawRefDropless p))

/-- A typed attribute value in the engine's per-operator attribute table;
the float payload is carried opaquely (the binding never computes with it,
it only transports the 32-bit value the engine wrote). -/
inductive AttributeValue where
  | floatVal (v : Nat)
  | intVal (v : Int)
  | strVal (s : List Nat)
  deriving DecidableEq, Repr

/-- Engine model of the opaque attribute-info handle: a table from
attribute names (byte strings) to typed values, absent names mapping to
none. -/
structure KernelInfoEngine where
  attrs : List Nat → Option AttributeValue

/-- The native KernelInfoGetAttribute_float call at the boundary contract of
the spec: it succeeds with the stored value exactly when the named attribute
exists and has float type; a missing attribute or one of any other type is
a failed status, indistinguishable from each other at the status level. -/
def kernelInfoGetAttributeFloat (eng : KernelInfoEngine) (name : List Nat) :
    Except Unit Nat :=
  match eng.attrs name with
  | some (.floatVal v) => .ok v
  | _ => .error ()

/-- KernelAttributes::get for f32 from the source: encode the name as a C
string, which fails to none without any foreign call when the name contains
an embedded null byte; otherwise perform the one typed foreign query and
collapse a failed status to none, returning the engine-written value on
success. The second component is the call trace. -/
def kernelAttributesGet (eng : KernelInfoEngine) (name : List Nat) :
    Option Nat × List FCall :=
  if name.contains 0 then (none, [])
  else
    match kernelInfoGetAttributeFloat eng name with
    | .error _ => (none, [.KernelInfoGetAttributeFloat])
    | .ok v => (some v, [.KernelInfoGetAttributeFloat])

end OrtSpec

namespace OrtSpec

/-- Writing into a buffer preserves the buffer's length. -/
theorem bufWrite_length (w b : List Nat) : (bufWrite w b).length = b.length := by
  simp only [bufWrite, List.length_append, List.length_take, List.length_drop]
  omega

/-- The adjacent-pair list of a list has one element fewer. -/
theorem windows2_length : (l : List Nat) → (windows2 l).length = l.length - 1
  | [] => rfl
  | [_] => rfl
  | _ :: b :: r => by
    simp only [windows2, List.length_cons, windows2_length (b :: r)]
    omega

/-- Characterization of a successful UTF-8 decode: the decoded string is the
input bytes and those bytes are valid. -/
theorem fromUtf8_ok (bs s : List Nat) (h : fromUtf8 bs = .ok s) :
    s = bs ∧ utf8Valid bs = true := by
  by_cases hv : utf8Valid bs
  · rw [fromUtf8, if_pos hv] at h
    injection h with h
    exact ⟨h.symm, hv⟩
  · rw [fromUtf8, if_neg hv] at h
    simp at h

/-- A successful decode loop returns exactly the per-window slices of the
content buffer, in order, and every returned element is valid UTF-8. -/
theorem decodeStrings_ok (contents : List Nat) :
    (ws : List (Nat × Nat)) → (l : List (List Nat)) →
    decodeStrings contents ws = .ok l →
    l = ws.map (fun w => (contents.drop w.1).take (w.2 - w.1)) ∧ l.all utf8Valid = true := by
  intro ws
  induction ws with
  | nil =>
    intro l h
    simp only [decodeStrings] at h
    injection h with h
    subst h
    simp
  | cons w ws ih =>
    intro l h
    simp only [decodeStrings] at h
    by_cases hw : w.1 ≤ w.2 ∧ w.2 ≤ contents.length
    · rw [if_pos hw] at h
      cases hv : fromUtf8 ((contents.drop w.1).take (w.2 - w.1)) with
      | error bs => rw [hv] at h; simp at h
      | ok s =>
        rw [hv] at h
        cases hd : decodeStrings contents ws with
        | ok rest =>
          rw [hd] at h
          injection h with h
          subst h
          obtain ⟨hmap, hall⟩ := ih rest hd
          obtain ⟨hs, hvalid⟩ := fromUtf8_ok _ _ hv
          subst hs
          simp only [List.map_cons, List.all_cons, hall, Bool.and_true]
          exact ⟨by rw [← hmap], hvalid⟩
        | err e => rw [hd] at h; simp at h
        | fatal k => rw [hd] at h; simp at h
    · rw [if_neg hw] at h
      simp at h

/-- The decode loop can only raise the out-of-range-slice fault, never the
shape-mismatch fault of the assembly step. -/
theorem decodeStrings_fatal (contents : List Nat) :
    (ws : List (Nat × Nat)) → (k : FaultKind) →
    decodeStrings contents ws = .fatal k → k = .sliceOutOfRange := by
  intro ws
  induction ws with
  | nil =>
    intro k h
    simp only [decodeStrings] at h
    simp at h
  | cons w ws ih =>
    intro k h
    simp only [decodeStrings] at h
    by_cases hw : w.1 ≤ w.2 ∧ w.2 ≤ contents.length
    · rw [if_pos hw] at h
      cases hv : fromUtf8 ((contents.drop w.1).take (w.2 - w.1)) with
      | error bs => rw [hv] at h; simp at h
      | ok s =>
        rw [hv] at h
        cases hd : decodeStrings contents ws with
        | ok rest => rw [hd] at h; simp at h
        | err e => rw [hd] at h; simp at h
        | fatal k2 =>
          rw [hd] at h
          injection h with h
          subst h
          exact ih k2 hd
    · rw [if_neg hw] at h
      injection h with h
      exact h.symm

/-- Claim C2: for every tag of the closed element-type set, converting to the
native code and back yields the same tag: fromNative (toNative t) = ok t. -/
theorem fromNative_toNative_roundTrip (t : TensorElementType) :
    fromNative (toNative t) = .ok t := by
  cases t <;> rfl

/-- Claim C7: converting a native code outside the supported set (undefined,
complex64, complex128) is a fatal fault with kind invalidNativeCode, not a
typed error; and the conversion never silently coerces: whenever it succeeds
with some tag, that tag's own native code is exactly the code converted. -/
theorem fromNative_unsupported_fatal :
    fromNative .ONNX_TENSOR_ELEMENT_DATA_TYPE_UNDEFINED = .fatal .invalidNativeCode ∧
    fromNative .ONNX_TENSOR_ELEMENT_DATA_TYPE_COMPLEX64 = .fatal .invalidNativeCode ∧
    fromNative .ONNX_TENSOR_ELEMENT_DATA_TYPE_COMPLEX128 = .fatal .invalidNativeCode ∧
    ∀ (c : ONNXTensorElementDataType) (t : TensorElementType),
      fromNative c = .ok t → toNative t = c := by
  refine ⟨rfl, rfl, rfl, ?_⟩
  intro c t h
  cases c <;> cases t <;> simp_all [fromNative, toNative]

/-- Witness for the hypothesis-bearing part of the C7 theorem, instantiated
at the float code and tag. -/
theorem fromNative_unsupported_fatal_witness :
    toNative .Float32 = .ONNX_TENSOR_ELEMENT_DATA_TYPE_FLOAT :=
  fromNative_unsupported_fatal.2.2.2 .ONNX_TENSOR_ELEMENT_DATA_TYPE_FLOAT .Float32 rfl

/-- Claim C8: for every supported host scalar type, the tag reported by the
extraction capability trait equals the tag used by the construction-side
registry. -/
theorem extract_into_tensorElementType_agree (t : HostScalarType) :
    extractTensorElementType t = intoTensorElementType t := by
  cases t <;> rfl

/-- Claim C1: string extraction follows the specified algorithm. On the
worked example - element count 3, content bytes ab XYZ qrs, engine-filled
offsets 0 2 5 - the single content-fetch call is issued after the length
query, the final offset slot (left at 0 by the engine) is overwritten with
the total length 8, and the result is the owned elements ab, XYZ, qrs.
In general, a successful decode loop returns exactly the slices
content[offset[i]..offset[i+1]] for each adjacent offset pair. -/
theorem string_extract_worked_example :
    stringExtractTensorArray engStrAbc [3] 3 =
      (.ok (.Strings [3] [[97, 98], [88, 89, 90], [113, 114, 115]]),
       [.GetStringTensorDataLength, .GetStringTensorContent]) ∧
    ∀ (contents : List Nat) (ws : List (Nat × Nat)) (l : List (List Nat)),
      decodeStrings contents ws = .ok l →
      l = ws.map (fun w => (contents.drop w.1).take (w.2 - w.1)) := by
  refine ⟨by decide, ?_⟩
  intro contents ws l h
  exact (decodeStrings_ok contents ws l h).1

/-- Witness for the hypothesis-bearing part of the C1 theorem: decoding the
single window 0..2 of the content buffer 97 98 succeeds and returns exactly
that slice. -/
theorem string_extract_worked_example_witness :
    ([[97, 98]] : List (List Nat)) =
      ([((0 : Nat), (2 : Nat))]).map
        (fun w => (([97, 98] : List Nat).drop w.1).take (w.2 - w.1)) :=
  string_extract_worked_example.2 [97, 98] [(0, 2)] [[97, 98]] (by decide)

/-- Counterexample to claim C3 as stated: the decode error does not carry the
failing element's index or offset range. Two extractions whose invalid byte
sits at different element indices (0 with range 0..1, versus 1 with range
1..2) produce byte-for-byte identical results, so no function of the
returned error can recover the index or the range. -/
theorem string_decode_error_lacks_element_index :
    stringExtractTensorArray engStrBadFirst [2] 2 =
      stringExtractTensorArray engStrBadSecond [2] 2 ∧
    stringExtractTensorArray engStrBadFirst [2] 2 =
      (.err (.StringFromUtf8Error [255]),
       [.GetStringTensorDataLength, .GetStringTensorContent]) := by
  constructor <;> decide

/-- Claim C3, amended: if any element's byte slice is invalid UTF-8, the
whole extraction fails with a text-decode error carrying a copy of the
offending element's bytes (not its index or offset range), and no partial
array is returned: a successful extraction contains only valid elements. -/
theorem string_decode_failure_aborts_extraction :
    stringExtractTensorArray engStrBadSecond [2] 2 =
      (.err (.StringFromUtf8Error [255]),
       [.GetStringTensorDataLength, .GetStringTensorContent]) ∧
    ∀ (eng : StringTensorEngine) (shape : List Nat) (n : Nat)
      (shp : List Nat) (strs : List (List Nat)) (tr : List FCall),
      stringExtractTensorArray eng shape n = (.ok (.Strings shp strs), tr) →
      strs.all utf8Valid = true := by
  refine ⟨by decide, ?_⟩
  intro eng shape n shp strs tr h
  unfold stringExtractTensorArray at h
  cases h1 : eng.stringDataLength with
  | error u => rw [h1] at h; simp at h
  | ok total =>
    rw [h1] at h
    cases h2 : eng.stringContent with
    | error u => rw [h2] at h; simp at h
    | ok cwow =>
      obtain ⟨cw, ow⟩ := cwow
      rw [h2] at h
      simp only at h
      split at h
      · simp at h
      · split at h
        · next strs2 hd =>
          split at h
          · simp only [Prod.mk.injEq, Outcome.ok.injEq, TensorData.Strings.injEq] at h
            obtain ⟨⟨_, hstrs⟩, _⟩ := h
            subst hstrs
            exact (decodeStrings_ok _ _ _ hd).2
          · simp at h
        · simp at h
        · simp at h

/-- Witness for the hypothesis-bearing part of the C3 (amended) theorem:
the worked-example extraction succeeds and all its decoded elements are
valid UTF-8. -/
theorem string_decode_failure_aborts_extraction_witness :
    ([[97, 98], [88, 89, 90], [113, 114, 115]] : List (List Nat)).all utf8Valid = true :=
  string_decode_failure_aborts_extraction.2 engStrAbc [3] 3 [3]
    [[97, 98], [88, 89, 90], [113, 114, 115]]
    [.GetStringTensorDataLength, .GetStringTensorContent] (by decide)

/-- Claim C9: assembling the decoded strings with a shape whose element
count disagrees with the number of decoded elements is a fatal fault (the
expect panic), shown on the worked example reshaped to 2 by 2; and under the
precondition that the supplied shape describes exactly the tensor's element
count, the shape-mismatch fault is unreachable for every engine. -/
theorem string_assembly_shape_mismatch_fatal :
    stringExtractTensorArray engStrAbc [2, 2] 3 =
      (.fatal .shapeMismatch, [.GetStringTensorDataLength, .GetStringTensorContent]) ∧
    ∀ (eng : StringTensorEngine) (shape : List Nat) (n : Nat),
      shapeSize shape = n →
      (stringExtractTensorArray eng shape n).1 ≠ .fatal .shapeMismatch := by
  refine ⟨by decide, ?_⟩
  intro eng shape n hn
  unfold stringExtractTensorArray
  cases h1 : eng.stringDataLength with
  | error u => simp
  | ok total =>
    cases h2 : eng.stringContent with
    | error u => simp
    | ok cwow =>
      obtain ⟨cw, ow⟩ := cwow
      simp only
      split
      · simp
      · split
        · next strs hd =>
          have hmap := (decodeStrings_ok _ _ _ hd).1
          have hlen : strs.length = n := by
            rw [hmap, List.length_map, windows2_length, List.length_set,
              bufWrite_length, List.length_replicate]
            omega
          rw [hn, ← hlen]
          simp
        · simp
        · next k hd =>
          have := decodeStrings_fatal _ _ _ hd
          subst this
          simp

/-- Witness for the C9 theorem's unreachability part: on the worked example,
where the shape 3 matches the element count 3, the shape-mismatch fault
does not occur. -/
theorem string_assembly_shape_mismatch_fatal_witness :
    (stringExtractTensorArray engStrAbc [3] 3).1 ≠ .fatal .shapeMismatch :=
  string_assembly_shape_mismatch_fatal.2 engStrAbc [3] 3 (by decide)

/-- Claim C4: primitive zero-copy extraction issues exactly one foreign data
call in every case; a failed status or a null data pointer yields a returned
typed error; otherwise the result is the borrowed view over the engine's
pointer - holding only the shape and the raw pointer, no copied bytes -
paired with the original tensor handle as the borrow token. -/
theorem prim_extract_single_call_zero_copy :
    ∀ (eng : PrimTensorEngine) (shape : List Nat) (len tensor : Nat),
      (primExtractTensorArray eng shape len tensor).2 = [.GetTensorMutableData] ∧
      (eng.tensorMutableData tensor = .error () →
        primExtractTensorArray eng shape len tensor =
          (.err .GetTensorMutableData, [.GetTensorMutableData])) ∧
      (eng.tensorMutableData tensor = .ok 0 →
        primExtractTensorArray eng shape len tensor =
          (.err .PointerShouldNotBeNull, [.GetTensorMutableData])) ∧
      (∀ p, p ≠ 0 → eng.tensorMutableData tensor = .ok p →
        primExtractTensorArray eng shape len tensor =
          (.ok (.PrimitiveView tensor ⟨shape, p⟩), [.GetTensorMutableData])) := by
  intro eng shape len tensor
  cases h : eng.tensorMutableData tensor with
  | error u =>
    cases u
    simp [primExtractTensorArray, extractPrimitiveArray, h]
  | ok p =>
    by_cases hp : p = 0
    · subst hp
      simp [primExtractTensorArray, extractPrimitiveArray, h]
      intro q hq
      omega
    · simp [primExtractTensorArray, extractPrimitiveArray, h, hp]

/-- Witness for the C4 theorem at concrete engines: a successful engine
writing pointer 7, a failing engine, and a null-writing engine. -/
theorem prim_extract_single_call_zero_copy_witness :
    primExtractTensorArray ⟨fun _ => .ok 7⟩ [2, 3] 6 5 =
      (.ok (.PrimitiveView 5 ⟨[2, 3], 7⟩), [.GetTensorMutableData]) ∧
    primExtractTensorArray ⟨fun _ => .error ()⟩ [2, 3] 6 5 =
      (.err .GetTensorMutableData, [.GetTensorMutableData]) ∧
    primExtractTensorArray ⟨fun _ => .ok 0⟩ [2, 3] 6 5 =
      (.err .PointerShouldNotBeNull, [.GetTensorMutableData]) :=
  ⟨(prim_extract_single_call_zero_copy ⟨fun _ => .ok 7⟩ [2, 3] 6 5).2.2.2 7 (by decide) rfl,
   (prim_extract_single_call_zero_copy ⟨fun _ => .error ()⟩ [2, 3] 6 5).2.1 rfl,
   (prim_extract_single_call_zero_copy ⟨fun _ => .ok 0⟩ [2, 3] 6 5).2.2.1 rfl⟩

/-- Claim C5: the kernel output accessor returns none whenever the foreign
allocation call reports failure, never a partially initialized handle; on
reported success with a non-null written handle it returns that handle; a
null handle despite reported success is the fatal assertion, not a normal
error. -/
theorem kernel_output_null_is_fatal :
    ∀ (eng : KernelContextEngine) (idx : Nat) (shape : List Int),
      (eng.getOutput idx shape = .error () →
        kernelContextOutput eng idx shape = .ok none) ∧
      (∀ p, p ≠ 0 → eng.getOutput idx shape = .ok p →
        kernelContextOutput eng idx shape = .ok (some p)) ∧
      (eng.getOutput idx shape = .ok 0 →
        kernelContextOutput eng idx shape = .fatal .nullOutputHandle) := by
  intro eng idx shape
  cases h : eng.getOutput idx shape with
  | error u =>
    cases u
    simp [kernelContextOutput, h]
  | ok p =>
    by_cases hp : p = 0
    · subst hp
      simp [kernelContextOutput, h]
      intro q hq
      omega
    · simp [kernelContextOutput, valueFromRawRefDropless, h, hp]

/-- Witness for the C5 theorem at concrete engines: an allocating engine
writing handle 9, a failing engine, and a contract-violating engine
reporting success with a null handle. -/
theorem kernel_output_null_is_fatal_witness :
    kernelContextOutput ⟨fun _ => .ok 1, fun _ _ => .ok 9⟩ 0 [4] = .ok (some 9) ∧
    kernelContextOutput ⟨fun _ => .ok 1, fun _ _ => .error ()⟩ 0 [4] = .ok none ∧
    kernelContextOutput ⟨fun _ => .ok 1, fun _ _ => .ok 0⟩ 0 [4] = .fatal .nullOutputHandle :=
  ⟨(kernel_output_null_is_fatal ⟨fun _ => .ok 1, fun _ _ => .ok 9⟩ 0 [4]).2.1 9 (by decide) rfl,
   (kernel_output_null_is_fatal ⟨fun _ => .ok 1, fun _ _ => .error ()⟩ 0 [4]).1 rfl,
   (kernel_output_null_is_fatal ⟨fun _ => .ok 1, fun _ _ => .ok 0⟩ 0 [4]).2.2 rfl⟩

/-- Claim C6: the attribute getter returns none in every failure case - an
embedded null byte in the name (in which case no foreign call is even
issued), an absent attribute, and an attribute of incompatible type - and
all those outcomes are the same value none at the returned type; otherwise
it performs the single typed foreign query and returns the value the engine
wrote. -/
theorem kernel_attribute_get_collapses_failures :
    ∀ (eng : KernelInfoEngine) (name : List Nat),
      (name.contains 0 = true → kernelAttributesGet eng name = (none, [])) ∧
      (name.contains 0 = false → eng.attrs name = none →
        kernelAttributesGet eng name = (none, [.KernelInfoGetAttributeFloat])) ∧
      (∀ v, name.contains 0 = false → eng.attrs name = some (.intVal v) →
        kernelAttributesGet eng name = (none, [.KernelInfoGetAttributeFloat])) ∧
      (∀ s, name.contains 0 = false → eng.attrs name = some (.strVal s) →
        kernelAttributesGet eng name = (none, [.KernelInfoGetAttributeFloat])) ∧
      (∀ v, name.contains 0 = false → eng.attrs name = some (.floatVal v) →
        kernelAttributesGet eng name = (some v, [.KernelInfoGetAttributeFloat])) := by
  intro eng name
  refine ⟨?_, ?_, ?_, ?_, ?_⟩
  · intro hz
    have hz2 : 0 ∈ name := by simpa using hz
    simp [kernelAttributesGet, hz2]
  · intro hz hattr
    have hz2 : 0 ∉ name := by simpa using hz
    simp [kernelAttributesGet, kernelInfoGetAttributeFloat, hz2, hattr]
  · intro v hz hattr
    have hz2 : 0 ∉ name := by simpa using hz
    simp [kernelAttributesGet, kernelInfoGetAttributeFloat, hz2, hattr]
  · intro s hz hattr
    have hz2 : 0 ∉ name := by simpa using hz
    simp [kernelAttributesGet, kernelInfoGetAttributeFloat, hz2, hattr]
  · intro v hz hattr
    have hz2 : 0 ∉ name := by simpa using hz
    simp [kernelAttributesGet, kernelInfoGetAttributeFloat, hz2, hattr]

/-- Witness for the C6 theorem at concrete attribute tables over the name
alpha (bytes 97 108 112 104 97): a float attribute of value 3, an absent
attribute, an int-typed attribute, and a name with an embedded null byte. -/
theorem kernel_attribute_get_collapses_failures_witness :
    kernelAttributesGet ⟨fun _ => some (.floatVal 3)⟩ [97, 108, 112, 104, 97] =
      (some 3, [.KernelInfoGetAttributeFloat]) ∧
    kernelAttributesGet ⟨fun _ => none⟩ [97, 108, 112, 104, 97] =
      (none, [.KernelInfoGetAttributeFloat]) ∧
    kernelAttributesGet ⟨fun _ => some (.intVal 3)⟩ [97, 108, 112, 104, 97] =
      (none, [.KernelInfoGetAttributeFloat]) ∧
    kernelAttributesGet ⟨fun _ => some (.floatVal 3)⟩ [97, 0, 98] = (none, []) :=
  ⟨(kernel_attribute_get_collapses_failures ⟨fun _ => some (.floatVal 3)⟩
      [97, 108, 112, 104, 97]).2.2.2.2 3 (by decide) rfl,
   (kernel_attribute_get_collapses_failures ⟨fun _ => none⟩
      [97, 108, 112, 104, 97]).2.1 (by decide) rfl,
   (kernel_attribute_get_collapses_failures ⟨fun _ => some (.intVal 3)⟩
      [97, 108, 112, 104, 97]).2.2.1 3 (by decide) rfl,
   (kernel_attribute_get_collapses_failures ⟨fun _ => some (.floatVal 3)⟩
      [97, 0, 98]).1 (by decide)⟩

/-- Claim C10: the kernel input accessor performs no null check on success:
whenever the foreign call reports success it wraps whatever handle pointer
the engine wrote, including the null pointer 0, while a reported failure
collapses to none; by contrast, the output accessor turns a null handle on
reported success into a fatal assertion. -/
theorem kernel_input_no_null_check :
    ∀ (eng : KernelContextEngine) (idx : Nat),
      (∀ p, eng.getInput idx = .ok p → kernelContextInput eng idx = some p) ∧
      (eng.getInput idx = .ok 0 → kernelContextInput eng idx = some 0) ∧
      (eng.getInput idx = .error () → kernelContextInput eng idx = none) ∧
      (∀ shape, eng.getOutput idx shape = .ok 0 →
        kernelContextOutput eng idx shape = .fatal .nullOutputHandle) := by
  intro eng idx
  refine ⟨?_, ?_, ?_, ?_⟩
  · intro p hp
    simp [kernelContextInput, valueFromRawRefDropless, hp]
  · intro hp
    simp [kernelContextInput, valueFromRawRefDropless, hp]
  · intro hp
    simp [kernelContextInput, hp]
  · intro shape hp
    simp [kernelContextOutput, hp]

/-- Witness for the C10 theorem at concrete engines: an engine reporting
success while leaving the input handle null, one writing handle 9, one
failing, and one reporting output success with a null handle. -/
theorem kernel_input_no_null_check_witness :
    kernelContextInput ⟨fun _ => .ok 0, fun _ _ => .ok 1⟩ 2 = some 0 ∧
    kernelContextInput ⟨fun _ => .ok 9, fun _ _ => .ok 1⟩ 2 = some 9 ∧
    kernelContextInput ⟨fun _ => .error (), fun _ _ => .ok 1⟩ 2 = none ∧
    kernelContextOutput ⟨fun _ => .ok 0, fun _ _ => .ok 0⟩ 2 [4] = .fatal .nullOutputHandle :=
  ⟨(kernel_input_no_null_check ⟨fun _ => .ok 0, fun _ _ => .ok 1⟩ 2).2.1 rfl,
   (kernel_input_no_null_check ⟨fun _ => .ok 9, fun _ _ => .ok 1⟩ 2).1 9 rfl,
   (kernel_input_no_null_check ⟨fun _ => .error (), fun _ _ => .ok 1⟩ 2).2.2.1 rfl,
   (kernel_input_no_null_check ⟨fun _ => .ok 0, fun _ _ => .ok 0⟩ 2).2.2.2 [4] rfl⟩

end OrtSpec
